import Mathlib

/-!
Verification development for the sx1280 Linux driver (Semtech SX1280 RF
transceiver).  The definitions below are shallow embeddings of the C source:
machine integers are modelled as `Nat` with explicit `% 2^w` truncation at the
points where the C performs a narrowing conversion or where unsigned overflow
can occur, and fallible functions return `Option` (`none` models `-EINVAL`).
-/

namespace SX1280

/-- Crystal reference frequency in Hz (`SX1280_FREQ_XOSC_HZ`, src/sx1280.h:7). -/
def SX1280_FREQ_XOSC_HZ : Nat := 52000000

/-!
## Timeout derivation (claim C1)

`sx1280_parse_dt` (src/sx1280.c:1438-1468) converts the requested transmit
timeout in microseconds into a `(period_base, period_base_count)` pair.
In the C source `timeout_ns` is a `u32` (`u32 timeout_ns = tx_timeout_us *
1000;`), and `pdata->period_base_count` is a `u16` field
(src/sx1280.h:459), so both computations truncate.
-/

/-- The timeout computation of `sx1280_parse_dt` (src/sx1280.c:1440-1467).
Returns `some (period_base_code, period_base_count)`, or `none` for the
`-EINVAL` branch (`tx_timeout_us >= 262144000`).  `timeout_ns` is computed in
`u32` arithmetic and the final count is stored in a `u16` field; the period
base codes are those of `enum sx1280_period_base` (0x00 = 15.625 us,
0x01 = 62.5 us, 0x02 = 1 ms, 0x03 = 4 ms). -/
def sx1280_parse_dt_timeout (tx_timeout_us : Nat) : Option (Nat × Nat) :=
  let timeout_ns : Nat := (tx_timeout_us * 1000) % 2 ^ 32
  let sel : Option (Nat × Nat) :=
    if tx_timeout_us < 1024000 then some (0x00, 15625)
    else if tx_timeout_us < 4096000 then some (0x01, 62500)
    else if tx_timeout_us < 6553600 then some (0x02, 1000000)
    else if tx_timeout_us < 262144000 then some (0x03, 4000000)
    else none
  sel.map fun pb =>
    (pb.1,
      (timeout_ns / pb.2 + (if timeout_ns % pb.2 ≠ 0 then 1 else 0)) % 2 ^ 16)

/-- Nanoseconds per tick for a period-base code (trivial decode of
`enum sx1280_period_base`, src/sx1280.h:425-437). -/
def periodBaseNs (code : Nat) : Nat :=
  if code = 0 then 15625
  else if code = 1 then 62500
  else if code = 2 then 1000000
  else 4000000

/-!
## Frequency conversion (claim C2)

The conversion macros (src/unnamed/part_000:31-32, src/sx1280.h:10):

  `SX1280_FREQ_HZ_TO_PLL(hz) = (u32)((((u64)(hz) << 32) / 52000000) >> 14)`
  `SX1280_FREQ_PLL_TO_HZ(pll) = (u32)((((u64)(pll) << 14) * 52000000) >> 32)`

All intermediate arithmetic is `u64` (truncating at `2^64`), the result is
truncated to `u32`.
-/

/-- `SX1280_FREQ_HZ_TO_PLL` macro, bit-for-bit (src/unnamed/part_000:31). -/
def SX1280_FREQ_HZ_TO_PLL (hz : Nat) : Nat :=
  ((hz % 2 ^ 32) * 2 ^ 32 % 2 ^ 64 / 52000000 / 2 ^ 14) % 2 ^ 32

/-- `SX1280_FREQ_PLL_TO_HZ` macro, bit-for-bit (src/unnamed/part_000:32). -/
def SX1280_FREQ_PLL_TO_HZ (pll : Nat) : Nat :=
  ((pll % 2 ^ 32) * 2 ^ 14 % 2 ^ 64 * 52000000 % 2 ^ 64 / 2 ^ 32) % 2 ^ 32

/-!
## LoRa preamble mantissa/exponent encoding (claim C3)

`sx1280_parse_dt_lora` (src/sx1280.c:1318-1350) reduces the requested
`u32 preamble_bits` by repeated right shift:

    u32 pb_mant = preamble_bits;
    u8 pb_exp = 0;
    while ((pb_mant & 1) == 0) { pb_mant >>= 1; pb_exp++; }

and then rejects unless `pb_mant` is in [1,15] and `pb_exp` is in [1,15],
encoding the accepted value as `(pb_exp << 4) | (u8) pb_mant`.

Note that for `preamble_bits = 0` the C loop never terminates (`pb_mant`
stays 0); the embedding below uses fuel and is faithful for every
`0 < preamble_bits < 2^fuel` (the loop strictly halves `pb_mant`, so at most
`fuel` iterations happen).  All theorems about it therefore assume a positive
bit count.
-/

/-- The reduction loop of `sx1280_parse_dt_lora` (src/sx1280.c:1322-1331),
with fuel; exact for `0 < mant < 2^fuel`. -/
def loraPreambleReduce : Nat → Nat → Nat → Nat × Nat
  | 0, mant, e => (mant, e)
  | fuel + 1, mant, e =>
    if mant % 2 = 0 then loraPreambleReduce fuel (mant / 2) (e + 1)
    else (mant, e)

/-- The LoRa preamble validation and encoding of `sx1280_parse_dt_lora`
(src/sx1280.c:1322-1350): reduce the `u32` bit count (32 fuel covers every
positive `u32`), reject unless mantissa and exponent are in [1,15], and
produce the byte `(pb_exp << 4) | pb_mant`. -/
def sx1280_parse_dt_lora_preamble (preamble_bits : Nat) : Option Nat :=
  let r := loraPreambleReduce 32 (preamble_bits % 2 ^ 32) 0
  if r.1 = 0 ∨ r.1 > 15 ∨ r.2 = 0 ∨ r.2 > 15 then none
  else some ((r.2 <<< 4) ||| (r.1 % 2 ^ 8))

/-- The LoRa preamble decode of `lora_preamble_bits_show`
(src/Makefile:4277-4296, a further driver revision embedded in that file):
the stored code is read as a `u8`, then

    u8 mantissa = preamble_length & 0xF;
    u8 exponent = preamble_length >> 4;
    u32 bits = (u32) mantissa << (u32) exponent;
-/
def loraPreambleDecode (preamble_length : Nat) : Nat :=
  let b := preamble_length % 2 ^ 8
  (b &&& 0xF) <<< (b >>> 4)

/-!
## GFSK modulation index (claim C4)

`sx1280_parse_dt_gfsk` (src/sx1280.c:1088-1097), with `u32 mod_index`:

    if ((mod_index % 25 != 0 && mod_index != 35) || mod_index > 400)
      return -EINVAL;
    mod->modulation_index = (enum ...) (mod_index / 25 - 1);

The subtraction is `u32` arithmetic, so `mod_index = 0` wraps to
`0xFFFFFFFF`; the embedding keeps that wraparound explicit.
-/

/-- Modulation-index validation and encoding of `sx1280_parse_dt_gfsk`
(src/sx1280.c:1088-1097).  The result models the `u32` value of
`mod_index / 25 - 1` (wrapping subtraction). -/
def sx1280_parse_dt_gfsk_mod_index (mod_index : Nat) : Option Nat :=
  if (mod_index % 25 ≠ 0 ∧ mod_index ≠ 35) ∨ mod_index > 400 then none
  else some ((mod_index / 25 + (2 ^ 32 - 1)) % 2 ^ 32)

/-!
## GFSK/FLRC/BLE preamble length (claim C5)

Two encoders exist in the repository:

* `sx1280_preamble_itoe` (src/unnamed/part_000:152-158) returns
  `(bits - 4) << 2` after validating `4 <= bits <= 32` and `bits % 4 == 0`,
  matching the header macro `SX1280_PREAMBLE_BITS` (src/sx1280.h:273) and the
  chip codes of `enum sx1280_preamble_length` (0x00 for 4 bits .. 0x70 for 32
  bits);
* `sx1280_parse_dt_gfsk` / `sx1280_parse_dt_flrc` (src/sx1280.c:1114-1127 and
  902-915) validate the same range but then store `preamble_bits << 2`
  (without the `- 4`), i.e. 0x10 for 4 bits up to 0x80 for 32 bits.
-/

/-- `sx1280_preamble_itoe` (src/unnamed/part_000:152-158); `-22` is
`-EINVAL`. -/
def sx1280_preamble_itoe (bits : Int) : Int :=
  if bits < 4 ∨ bits > 32 ∨ bits % 4 ≠ 0 then -22
  else (bits - 4) * 4

/-- `sx1280_preamble_etoi` (src/unnamed/part_000:160-162). -/
def sx1280_preamble_etoi (len : Int) : Int :=
  len / 4 + 4

/-- The preamble validation and store of `sx1280_parse_dt_gfsk`
(src/sx1280.c:1114-1127) and `sx1280_parse_dt_flrc` (src/sx1280.c:902-915):
`preamble_bits` is a `u32` and the stored value is `preamble_bits << 2`. -/
def sx1280_parse_dt_preamble (preamble_bits : Nat) : Option Nat :=
  if preamble_bits % 4 ≠ 0 ∨ preamble_bits > 32 ∨ preamble_bits < 4 then none
  else some (preamble_bits * 4 % 2 ^ 32)

/-!
## Helper lemmas for the LoRa preamble reduction loop
-/

/-- The reduction loop returns an odd mantissa which, scaled by two to the
number of loop iterations, recovers the input (for positive input within the
fuel bound). -/
theorem loraPreambleReduce_spec (fuel : Nat) :
    ∀ mant e, 0 < mant → mant < 2 ^ fuel →
      (loraPreambleReduce fuel mant e).1 % 2 = 1 ∧
      e ≤ (loraPreambleReduce fuel mant e).2 ∧
      (loraPreambleReduce fuel mant e).1 *
        2 ^ ((loraPreambleReduce fuel mant e).2 - e) = mant := by
  induction fuel with
  | zero =>
    intro mant e hpos hlt
    simp only [pow_zero] at hlt
    omega
  | succ n ih =>
    intro mant e hpos hlt
    by_cases h : mant % 2 = 0
    · have h2 : 0 < mant / 2 := by omega
      have h3 : mant / 2 < 2 ^ n := by
        rw [pow_succ] at hlt
        omega
      have spec := ih (mant / 2) (e + 1) h2 h3
      simp only [loraPreambleReduce, if_pos h]
      refine ⟨spec.1, by have := spec.2.1; omega, ?_⟩
      have hsub : (loraPreambleReduce n (mant / 2) (e + 1)).2 - e
          = ((loraPreambleReduce n (mant / 2) (e + 1)).2 - (e + 1)) + 1 := by
        have := spec.2.1
        omega
      rw [hsub, pow_succ, ← mul_assoc, spec.2.2]
      omega
    · simp only [loraPreambleReduce, if_neg h]
      exact ⟨by omega, Nat.le_refl e, by simp⟩

/-- A positive number factors as an odd mantissa times a power of two in at
most one way. -/
theorem odd_mantissa_factorization_unique :
    ∀ e1 m1 e2 m2 : Nat, m1 % 2 = 1 → m2 % 2 = 1 →
      m1 * 2 ^ e1 = m2 * 2 ^ e2 → m1 = m2 ∧ e1 = e2 := by
  intro e1
  induction e1 with
  | zero =>
    intro m1 e2 m2 h1 h2 h
    cases e2 with
    | zero =>
      simp only [pow_zero, mul_one] at h
      exact ⟨h, rfl⟩
    | succ t =>
      rw [pow_zero, mul_one, pow_succ, ← mul_assoc] at h
      omega
  | succ s ih =>
    intro m1 e2 m2 h1 h2 h
    cases e2 with
    | zero =>
      rw [pow_zero, mul_one, pow_succ, ← mul_assoc] at h
      omega
    | succ t =>
      rw [pow_succ, pow_succ, ← mul_assoc, ← mul_assoc] at h
      have h3 := Nat.eq_of_mul_eq_mul_right (by norm_num : 0 < 2) h
      have h4 := ih m1 t m2 h1 h2 h3
      exact ⟨h4.1, by omega⟩

/-- For nibble-sized exponent and mantissa, decoding the byte
(e << 4) | m yields m * 2^e. -/
theorem loraPreambleDecode_nibble :
    ∀ e, e < 16 → ∀ m, m < 16 →
      loraPreambleDecode ((e <<< 4) ||| m) = m * 2 ^ e := by
  decide

/-!
## Claim theorems C1..C5
-/

/-- Claim C1 (code bug): the driver does not realize a wait of at least the
requested duration.  At `tx_timeout_us = 1023999` the ceiling count 65536
is truncated by the `u16` store to 0, so the realized duration is 0 ns; at
`tx_timeout_us = 5000000` the `u32` computation of `timeout_ns` overflows
(`5*10^9 mod 2^32 = 705032704`), producing count 706 at the 1 ms base, a
realized duration of 706 ms for a requested 5 s. -/
theorem C1_timeout_realized_below_request :
    sx1280_parse_dt_timeout 1023999 = some (0, 0) ∧
    periodBaseNs 0 * 0 < 1023999 * 1000 ∧
    sx1280_parse_dt_timeout 5000000 = some (2, 706) ∧
    periodBaseNs 2 * 706 < 5000000 * 1000 := by
  decide

/-- Claim C2, counterexample: the inverse conversion is not exact on every
`u32` input; at `pll = 2^32 - 1` the true quotient exceeds `u32` range (and
the intermediate `u64` product wraps), so the macro result differs from
`floor(pll * 52000000 / 2^18)`. -/
theorem C2_pll_to_hz_not_exact_on_u32 :
    SX1280_FREQ_PLL_TO_HZ 4294967295 ≠ 4294967295 * 52000000 / 2 ^ 18 := by
  decide

/-- Claim C2, amended: the Hz-to-PLL macro computes exactly
`floor(hz * 2^18 / 52000000)` for every `u32` input; the PLL-to-Hz macro
computes `floor(pll * 52000000 / 2^18) mod 2^32` for every `u32` input, and
is exact (no truncation) on the 24-bit PLL domain the driver uses. -/
theorem C2_freq_conversion_exact (hz pll : Nat)
    (hhz : hz < 2 ^ 32) (hpll : pll < 2 ^ 32) :
    SX1280_FREQ_HZ_TO_PLL hz = hz * 2 ^ 18 / 52000000 ∧
    SX1280_FREQ_PLL_TO_HZ pll = pll * 52000000 / 2 ^ 18 % 2 ^ 32 ∧
    (pll < 2 ^ 24 → SX1280_FREQ_PLL_TO_HZ pll = pll * 52000000 / 2 ^ 18) := by
  have hfwd : SX1280_FREQ_HZ_TO_PLL hz = hz * 2 ^ 18 / 52000000 := by
    unfold SX1280_FREQ_HZ_TO_PLL
    rw [Nat.mod_eq_of_lt hhz]
    have h1 : hz * 2 ^ 32 < 2 ^ 64 := by
      calc hz * 2 ^ 32 < 2 ^ 32 * 2 ^ 32 :=
            (Nat.mul_lt_mul_right (by norm_num)).mpr hhz
        _ = 2 ^ 64 := by norm_num
    rw [Nat.mod_eq_of_lt h1, Nat.div_div_eq_div_mul]
    have h2 : hz * 2 ^ 32 = hz * 2 ^ 18 * 2 ^ 14 := by ring
    have h3 : (52000000 : Nat) * 2 ^ 14 = 52000000 * 2 ^ 14 := rfl
    rw [h2, Nat.mul_div_mul_right _ _ (by norm_num : (0 : Nat) < 2 ^ 14)]
    have h4 : hz * 2 ^ 18 / 52000000 < 2 ^ 32 := by
      apply Nat.div_lt_of_lt_mul
      calc hz * 2 ^ 18 < 2 ^ 32 * 2 ^ 18 :=
            (Nat.mul_lt_mul_right (by norm_num)).mpr hhz
        _ ≤ 52000000 * 2 ^ 32 := by norm_num
    exact Nat.mod_eq_of_lt h4
  have hinv : SX1280_FREQ_PLL_TO_HZ pll = pll * 52000000 / 2 ^ 18 % 2 ^ 32 := by
    unfold SX1280_FREQ_PLL_TO_HZ
    rw [Nat.mod_eq_of_lt hpll]
    have h1 : pll * 2 ^ 14 < 2 ^ 64 := by
      calc pll * 2 ^ 14 < 2 ^ 32 * 2 ^ 14 :=
            (Nat.mul_lt_mul_right (by norm_num)).mpr hpll
        _ ≤ 2 ^ 64 := by norm_num
    rw [Nat.mod_eq_of_lt h1]
    have h2 : (2 : Nat) ^ 64 = 2 ^ 32 * 2 ^ 32 := by norm_num
    rw [h2, Nat.mod_mul_right_div_self]
    have h3 : pll * 2 ^ 14 * 52000000 / 2 ^ 32 = pll * 52000000 / 2 ^ 18 := by
      have h4 : pll * 2 ^ 14 * 52000000 = pll * 52000000 * 2 ^ 14 := by ring
      have h5 : (2 : Nat) ^ 32 = 2 ^ 18 * 2 ^ 14 := by norm_num
      rw [h4, h5, Nat.mul_div_mul_right _ _ (by norm_num : (0 : Nat) < 2 ^ 14)]
    rw [h3, Nat.mod_mod_of_dvd _ dvd_rfl]
  refine ⟨hfwd, hinv, fun h24 => ?_⟩
  rw [hinv]
  apply Nat.mod_eq_of_lt
  apply Nat.div_lt_of_lt_mul
  calc pll * 52000000 < 2 ^ 24 * 52000000 :=
        (Nat.mul_lt_mul_right (by norm_num)).mpr h24
    _ ≤ 2 ^ 18 * 2 ^ 32 := by norm_num

/-- Witness for C2_freq_conversion_exact at the default RF frequency of
2.4 GHz. -/
theorem C2_freq_conversion_exact_witness :
    SX1280_FREQ_HZ_TO_PLL 2400000000 = 2400000000 * 2 ^ 18 / 52000000 :=
  (C2_freq_conversion_exact 2400000000 0 (by norm_num) (by norm_num)).1

/-- Claim C3, counterexample: 262144 = 8 << 15 is expressible with mantissa
8 and exponent 15, both in [1,15], yet the encoder rejects it (the reduction
loop strips all factors of two, reaching mantissa 1 and exponent 18 > 15). -/
theorem C3_expressible_count_rejected :
    sx1280_parse_dt_lora_preamble 262144 = none ∧
    262144 = 8 * 2 ^ 15 ∧ 1 ≤ 8 ∧ 8 ≤ 15 ∧ 1 ≤ 15 ∧ (15 : Nat) ≤ 15 := by
  decide

/-- Claim C3, amended: for every positive `u32` bit count, the encoder
accepts exactly the counts whose unique factorization with an ODD mantissa
has mantissa in [1,15] and exponent in [1,15]; on acceptance it produces the
byte `(exponent << 4) | mantissa` whose decode recovers the original count,
and every other positive count is rejected.  (A zero bit count is outside the
model: the reduction loop in the C source does not terminate on it.) -/
theorem C3_lora_preamble_amended (bits : Nat)
    (hpos : 0 < bits) (hlt : bits < 2 ^ 32) :
    (∀ m e, m % 2 = 1 → 1 ≤ m → m ≤ 15 → 1 ≤ e → e ≤ 15 → bits = m * 2 ^ e →
      sx1280_parse_dt_lora_preamble bits = some ((e <<< 4) ||| m) ∧
      loraPreambleDecode ((e <<< 4) ||| m) = bits) ∧
    ((¬ ∃ m e, m % 2 = 1 ∧ m ≤ 15 ∧ 1 ≤ e ∧ e ≤ 15 ∧ bits = m * 2 ^ e) →
      sx1280_parse_dt_lora_preamble bits = none) := by
  have hmod : bits % 2 ^ 32 = bits := Nat.mod_eq_of_lt hlt
  obtain ⟨hodd, -, hfact⟩ := loraPreambleReduce_spec 32 bits 0 hpos hlt
  rw [Nat.sub_zero] at hfact
  constructor
  · intro m e hm1 hm2 hm3 he1 he2 hbits
    obtain ⟨hmeq, heeq⟩ := odd_mantissa_factorization_unique
      (loraPreambleReduce 32 bits 0).2 (loraPreambleReduce 32 bits 0).1
      e m hodd hm1 (by rw [hfact, hbits])
    have henc : sx1280_parse_dt_lora_preamble bits
        = some ((e <<< 4) ||| m) := by
      simp only [sx1280_parse_dt_lora_preamble, hmod]
      rw [if_neg (by omega)]
      rw [hmeq, heeq, Nat.mod_eq_of_lt (by omega : m < 2 ^ 8)]
    refine ⟨henc, ?_⟩
    rw [loraPreambleDecode_nibble e (by omega) m (by omega), hbits]
  · intro hnone
    have hcond : (loraPreambleReduce 32 bits 0).1 = 0 ∨
        (loraPreambleReduce 32 bits 0).1 > 15 ∨
        (loraPreambleReduce 32 bits 0).2 = 0 ∨
        (loraPreambleReduce 32 bits 0).2 > 15 := by
      by_contra hc
      push_neg at hc
      exact hnone ⟨(loraPreambleReduce 32 bits 0).1,
        (loraPreambleReduce 32 bits 0).2,
        hodd, by omega, by omega, by omega, hfact.symm⟩
    simp only [sx1280_parse_dt_lora_preamble, hmod]
    rw [if_pos hcond]

/-- Witness for C3_lora_preamble_amended at 12 bits = 3 << 2. -/
theorem C3_lora_preamble_amended_witness :
    sx1280_parse_dt_lora_preamble 12 = some ((2 <<< 4) ||| 3) ∧
    loraPreambleDecode ((2 <<< 4) ||| 3) = 12 :=
  (C3_lora_preamble_amended 12 (by norm_num) (by norm_num)).1 3 2
    (by norm_num) (by norm_num) (by norm_num) (by norm_num) (by norm_num)
    (by norm_num)

/-- Claim C4 (code bug): the modulation-index check lacks a lower bound, so
0 and 25 (hundredths) are accepted although the claim (and the chip's legal
set) admits only multiples of 25 from 50 to 400 plus the exception 35.  At 0
the `u32` encoding `0 / 25 - 1` wraps to `0xFFFFFFFF` (not a member of
`enum sx1280_gfsk_modulation_index`, whose codes are 0x00..0x0F); at 25 the
value silently aliases the encoding of 0.35. -/
theorem C4_mod_index_accepts_below_50 :
    sx1280_parse_dt_gfsk_mod_index 0 = some (2 ^ 32 - 1) ∧
    sx1280_parse_dt_gfsk_mod_index 25 = some 0 ∧
    sx1280_parse_dt_gfsk_mod_index 35 = some 0 ∧
    sx1280_parse_dt_gfsk_mod_index 50 = some 1 ∧
    sx1280_parse_dt_gfsk_mod_index 400 = some 15 := by
  decide

/-- Claim C5 (code bug): `sx1280_parse_dt_gfsk` / `sx1280_parse_dt_flrc`
store `preamble_bits << 2` instead of `(preamble_bits - 4) << 2`: 4 bits is
stored as 0x10 (the chip code for 8 bits) and 32 bits as 0x80 (not a member
of `enum sx1280_preamble_length` at all), while the repository's own encoder
`sx1280_preamble_itoe` and the header macro `SX1280_PREAMBLE_BITS` produce
the claimed `((bits - 4) / 4) << 4` code (0x00 for 4 bits, 0x70 for 32). -/
theorem C5_parse_dt_preamble_off_by_four :
    sx1280_parse_dt_preamble 4 = some 0x10 ∧
    sx1280_parse_dt_preamble 32 = some 0x80 ∧
    sx1280_preamble_itoe 4 = 0x00 ∧
    sx1280_preamble_itoe 32 = 0x70 ∧
    ((4 - 4) / 4) <<< 4 = (0x00 : Nat) ∧
    ((32 - 4) / 4) <<< 4 = (0x70 : Nat) ∧
    sx1280_preamble_etoi (sx1280_preamble_itoe 4) = 4 := by
  decide

/-!
## State model of the part_000 driver (claims C6-C10)

The following definitions embed the configuration shadow
(`struct sx1280_config`), the SPI command stream, and the operations of
src/unnamed/part_000 that the remaining claims are about.  Each operation is
modelled as a function from the driver state to the new state together with
the list of commands sent to the chip, in order.  Chip-write failures, where
an operation checks them, are modelled by a boolean parameter per write.
-/

/-- enum sx1280_mode (src/unnamed/part_000:73-78). -/
inductive Mode
  | gfsk
  | lora
  | ranging
  | flrc
  deriving DecidableEq

/-- The chip byte of each mode (src/unnamed/part_000:73-78). -/
def Mode.toByte : Mode → Nat
  | .gfsk => 0x00
  | .lora => 0x01
  | .ranging => 0x02
  | .flrc => 0x03

/-- struct sx1280_gfsk_modulation_params (src/unnamed/part_000:407-411). -/
structure GfskModulationParams where
  bitrate_bandwidth : Nat
  modulation_index : Nat
  bandwidth_time : Nat
  deriving DecidableEq

/-- struct sx1280_flrc_modulation_params (src/unnamed/part_000:428-432). -/
structure FlrcModulationParams where
  bitrate_bandwidth : Nat
  coding_rate : Nat
  bandwidth_time : Nat
  deriving DecidableEq

/-- struct sx1280_lora_modulation_params (src/unnamed/part_000:463-467). -/
structure LoraModulationParams where
  spreading_factor : Nat
  bandwidth : Nat
  coding_rate : Nat
  deriving DecidableEq

/-- struct sx1280_gfsk_packet_params (src/unnamed/part_000:215-223). -/
structure GfskPacketParams where
  preamble_length : Nat
  sync_word_length : Nat
  sync_word_match : Nat
  packet_type : Nat
  payload_length : Nat
  crc_length : Nat
  whitening : Nat
  deriving DecidableEq

/-- struct sx1280_flrc_packet_params (src/unnamed/part_000:237-245). -/
structure FlrcPacketParams where
  agc_preamble_length : Nat
  sync_word_length : Nat
  sync_word_match : Nat
  packet_type : Nat
  payload_length : Nat
  crc_length : Nat
  whitening : Nat
  deriving DecidableEq

/-- struct sx1280_lora_packet_params (src/unnamed/part_000:257-263). -/
structure LoraPacketParams where
  preamble_length : Nat
  header_type : Nat
  payload_length : Nat
  crc : Nat
  invert_iq : Nat
  deriving DecidableEq

/-- struct sx1280_config (src/unnamed/part_000:702-715): the driver's shadow
of the chip configuration.  The three 5-byte sync words are kept as one
15-byte list, matching the single 15-byte register write in setup. -/
structure Config where
  mode : Mode
  period_base : Nat
  period_base_count : Nat
  power : Nat
  ramp_time : Nat
  freq : Nat
  sync_words : List Nat
  flrc_crc_seed : List Nat
  flrc_modulation : FlrcModulationParams
  flrc_packet : FlrcPacketParams
  gfsk_crc_polynomial : List Nat
  gfsk_crc_seed : List Nat
  gfsk_modulation : GfskModulationParams
  gfsk_packet : GfskPacketParams
  lora_modulation : LoraModulationParams
  lora_packet : LoraPacketParams
  deriving DecidableEq

/-- sx1280_default_config (src/unnamed/part_000:717-780), the module-scope
default configuration table, with every enum constant replaced by its chip
byte value. -/
def sx1280_default_config : Config where
  mode := .gfsk
  period_base := 0x02
  period_base_count := 1000
  power := 18
  ramp_time := 0x60
  freq := SX1280_FREQ_HZ_TO_PLL 2400000000
  sync_words := [0x12, 0xAD, 0x34, 0xCD, 0x56,
                 0xD3, 0x91, 0xD3, 0x91, 0xD3,
                 0xAA, 0xF0, 0x05, 0x3C, 0x81]
  flrc_crc_seed := [0xFF, 0xFF]
  flrc_modulation :=
    { bitrate_bandwidth := 0x45, coding_rate := 0x02, bandwidth_time := 0x10 }
  flrc_packet :=
    { agc_preamble_length := 0x10, sync_word_length := 0x04,
      sync_word_match := 0x10, packet_type := 0x20, payload_length := 127,
      crc_length := 0x10, whitening := 0x00 }
  gfsk_crc_polynomial := [0x10, 0x21]
  gfsk_crc_seed := [0xFF, 0xFF]
  gfsk_modulation :=
    { bitrate_bandwidth := 0x04, modulation_index := 0x01,
      bandwidth_time := 0x20 }
  gfsk_packet :=
    { preamble_length := 0x10, sync_word_length := 0x06,
      sync_word_match := 0x10, packet_type := 0x20, payload_length := 255,
      crc_length := 0x20, whitening := 0x00 }
  lora_modulation :=
    { spreading_factor := 0xC0, bandwidth := 0x0A, coding_rate := 0x03 }
  lora_packet :=
    { preamble_length := 0x10, header_type := 0x00, payload_length := 255,
      crc := 0x20, invert_iq := 0x40 }

/-- Register addresses (enum sx1280_register, src/unnamed/part_000:603-625). -/
def SX1280_REG_CRC_POLYNOMIAL_DEFINITION_MSB : Nat := 0x9C6

/-- CRC seed initial-value register (src/unnamed/part_000:608). -/
def SX1280_REG_CRC_MSB_INITIAL_VALUE : Nat := 0x9C8

/-- First sync-address register (src/unnamed/part_000:611). -/
def SX1280_REG_SYNC_ADDRESS_1_BYTE_4 : Nat := 0x9CE

/-- IRQ mask bits (src/unnamed/part_000:507-523). -/
def SX1280_IRQ_TX_DONE : Nat := 0x0001

/-- RX-done interrupt bit. -/
def SX1280_IRQ_RX_DONE : Nat := 0x0002

/-- Sync-word-valid interrupt bit. -/
def SX1280_IRQ_SYNC_WORD_VALID : Nat := 0x0004

/-- RX/TX-timeout interrupt bit. -/
def SX1280_IRQ_RX_TX_TIMEOUT : Nat := 0x4000

/-- Payload length limits (src/unnamed/part_000:629-634). -/
def SX1280_FLRC_PAYLOAD_LENGTH_MAX : Nat := 127

/-- GFSK maximum payload length. -/
def SX1280_GFSK_PAYLOAD_LENGTH_MAX : Nat := 255

/-- LoRa maximum payload length. -/
def SX1280_LORA_PAYLOAD_LENGTH_MAX : Nat := 255

/-- One SPI command sent to the chip, at the granularity of the
`sx1280_set_*` / `sx1280_write_*` helpers of part_000. -/
inductive Cmd
  | setStandby (mode : Nat)
  | setPacketType (t : Nat)
  | setRfFrequency (freq : Nat)
  | setTxParams (power ramp : Nat)
  | setBufferBaseAddress (txBase rxBase : Nat)
  | setModulationParams (p1 p2 p3 : Nat)
  | setPacketParams (ps : List Nat)
  | setTx (base cnt : Nat)
  | setRx (base cnt : Nat)
  | writeRegister (addr : Nat) (data : List Nat)
  | writeBuffer (offset : Nat) (data : List Nat)
  | clearIrqStatus (mask : Nat)
  deriving DecidableEq

/-- The chip-side state touched by the modelled commands, used to compare
the shadow config with what was last written to the chip. -/
structure Chip where
  packet_type : Nat
  freq : Nat
  power : Nat
  ramp_time : Nat
  deriving DecidableEq

/-- Effect of one successful command write on the tracked chip state. -/
def Chip.apply (c : Chip) : Cmd → Chip
  | .setPacketType t => { c with packet_type := t }
  | .setRfFrequency f => { c with freq := f }
  | .setTxParams p r => { c with power := p, ramp_time := r }
  | _ => c

/-- Effect of a command sequence on the chip state. -/
def Chip.applyAll (c : Chip) (cmds : List Cmd) : Chip :=
  cmds.foldl Chip.apply c

/-- Chip state after reset: standby, packet type GFSK (byte 0), everything
else cleared. -/
def sx1280_chip_reset : Chip :=
  { packet_type := 0, freq := 0, power := 0, ramp_time := 0 }

/-- The GFSK payload bytes tx[1..7] of sx1280_set_packet_params
(src/unnamed/part_000:1421-1429).  The struct fields are u8/enum valued, so
the C's (u8) casts are the identity on them. -/
def gfskPacketBytes (p : GfskPacketParams) : List Nat :=
  [p.preamble_length, p.sync_word_length, p.sync_word_match, p.packet_type,
   p.payload_length, p.crc_length, p.whitening]

/-- The FLRC payload bytes tx[1..7] of sx1280_set_packet_params
(src/unnamed/part_000:1412-1420). -/
def flrcPacketBytes (p : FlrcPacketParams) : List Nat :=
  [p.agc_preamble_length, p.sync_word_length, p.sync_word_match,
   p.packet_type, p.payload_length, p.crc_length, p.whitening]

/-- The LoRa payload bytes tx[1..7] of sx1280_set_packet_params
(src/unnamed/part_000:1430-1437); the trailing two bytes stay zero from the
zero-initialized `u8 tx[8]`. -/
def loraPacketBytes (p : LoraPacketParams) : List Nat :=
  [p.preamble_length, p.header_type, p.payload_length, p.crc, p.invert_iq,
   0, 0]

/-- sx1280_listen (src/unnamed/part_000:1854-1888), success path: re-send
the packet params with the payload length forced to the mode maximum, then
enter continuous receive with SetRx(period base 15.625 us, count 0xFFFF).
For ranging mode the C source leaves the zero-initialized union untouched (a
TODO), so all-zero LoRa-layout packet params go out. -/
def sx1280_listen (cfg : Config) : List Cmd :=
  let pp : Cmd :=
    match cfg.mode with
    | .flrc => .setPacketParams (flrcPacketBytes
        { cfg.flrc_packet with payload_length := SX1280_FLRC_PAYLOAD_LENGTH_MAX })
    | .gfsk => .setPacketParams (gfskPacketBytes
        { cfg.gfsk_packet with payload_length := SX1280_GFSK_PAYLOAD_LENGTH_MAX })
    | .lora => .setPacketParams (loraPacketBytes
        { cfg.lora_packet with payload_length := SX1280_LORA_PAYLOAD_LENGTH_MAX })
    | .ranging => .setPacketParams (loraPacketBytes
        { preamble_length := 0, header_type := 0, payload_length := 0,
          crc := 0, invert_iq := 0 })
  [pp, Cmd.setRx 0x00 0xFFFF]

/-- The part of struct sx1280_priv (src/unnamed/part_000:786-850) that the
modelled operations touch: the config shadow, the single-slot in-flight skb,
the idle flag (with its wake/wait side modelled by the flag value), the
initialization gate, the netdev counters, and the netdev queue state. -/
structure Priv where
  cfg : Config
  tx_skb : Option (List Nat)
  idle : Bool
  initialized : Bool
  stats_tx_packets : Nat
  stats_tx_bytes : Nat
  stats_tx_dropped : Nat
  queue_stopped : Bool
  deriving DecidableEq

/-- sx1280_tx_work (src/unnamed/part_000:1729-1801): validate the in-flight
skb length for the active mode, then write the payload at buffer offset 0,
re-send the packet params with the payload length substituted, and issue
SetTx with the configured timeout pair; invalid packets are dropped
(counted, queue restarted).  Chip writes are assumed to succeed. -/
def sx1280_tx_work (p : Priv) : Priv × List Cmd :=
  match p.tx_skb with
  | none => (p, [])
  | some skb =>
    let drop : Priv × List Cmd :=
      ({ p with stats_tx_dropped := p.stats_tx_dropped + 1,
                queue_stopped := false }, [])
    let send (pp : List Nat) : Priv × List Cmd :=
      ({ p with idle := false },
       [Cmd.setStandby 0, Cmd.writeBuffer 0x00 skb, Cmd.setPacketParams pp,
        Cmd.setTx p.cfg.period_base p.cfg.period_base_count])
    match p.cfg.mode with
    | .flrc =>
      if skb.length < 6 ∨ skb.length > 127 then drop
      else send (flrcPacketBytes
        { p.cfg.flrc_packet with payload_length := skb.length })
    | .gfsk =>
      if skb.length > 255 then drop
      else send (gfskPacketBytes
        { p.cfg.gfsk_packet with payload_length := skb.length })
    | .lora =>
      if skb.length < 1 ∨ skb.length > 255 then drop
      else send (loraPacketBytes
        { p.cfg.lora_packet with payload_length := skb.length })
    | .ranging => drop

/-- sx1280_irq (src/unnamed/part_000:1890-2048) restricted to interrupt
masks whose receive bits (RX_DONE, SYNC_WORD_VALID) are clear, so that the
receive branch of the handler is skipped: the transmit-completion branch
(free the in-flight frame, count it, mark idle and wake the idle waiters,
re-arm listening, restart the netdev queue) followed by the unconditional
acknowledge of all IRQ bits.  The GetIrqStatus result is the `mask` input;
chip writes are assumed to succeed.  Faithful only while a frame is in
flight: the C dereferences `priv->tx_skb` unconditionally in this branch. -/
def sx1280_irq_txonly (p : Priv) (mask : Nat) : Priv × List Cmd :=
  if p.initialized = false then (p, [])
  else
    let step : Priv × List Cmd :=
      if mask &&& SX1280_IRQ_TX_DONE ≠ 0 ∨
         mask &&& SX1280_IRQ_RX_TX_TIMEOUT ≠ 0 then
        let skbLen := (p.tx_skb.getD []).length
        ({ p with
            stats_tx_packets :=
              if mask &&& SX1280_IRQ_TX_DONE ≠ 0 then p.stats_tx_packets + 1
              else p.stats_tx_packets,
            stats_tx_bytes :=
              if mask &&& SX1280_IRQ_TX_DONE ≠ 0 then p.stats_tx_bytes + skbLen
              else p.stats_tx_bytes,
            stats_tx_dropped :=
              if mask &&& SX1280_IRQ_TX_DONE ≠ 0 then p.stats_tx_dropped
              else p.stats_tx_dropped + 1,
            tx_skb := none,
            idle := true,
            queue_stopped := false },
         sx1280_listen p.cfg)
      else (p, [])
    (step.1, step.2 ++ [Cmd.clearIrqStatus 0xFFFF])

/-- sx1280_setup (src/unnamed/part_000:2484-2570), success path, after the
reset and status check: the configuration command sequence written to the
chip.  The modulation-params block is always the GFSK one (the source
hard-codes `.mode = SX1280_MODE_GFSK` at src/unnamed/part_000:2522-2525),
and no SetPacketType, SetPacketParams or SetRx is issued here; the probe
arms receive by calling sx1280_listen afterwards
(src/unnamed/part_000:4000). -/
def sx1280_setup_cmds (cfg : Config) : List Cmd :=
  [Cmd.setRfFrequency cfg.freq,
   Cmd.setBufferBaseAddress 0x00 0x00,
   Cmd.setModulationParams cfg.gfsk_modulation.bitrate_bandwidth
     cfg.gfsk_modulation.modulation_index cfg.gfsk_modulation.bandwidth_time,
   Cmd.writeRegister SX1280_REG_SYNC_ADDRESS_1_BYTE_4 cfg.sync_words,
   Cmd.writeRegister SX1280_REG_CRC_POLYNOMIAL_DEFINITION_MSB
     cfg.gfsk_crc_polynomial,
   Cmd.writeRegister SX1280_REG_CRC_MSB_INITIAL_VALUE cfg.gfsk_crc_seed,
   Cmd.setTxParams cfg.power cfg.ramp_time]

/-- The driver state right after a successful probe: default config shadow,
no frame in flight, idle (set at the end of sx1280_setup), initialized. -/
def sx1280_initial_priv : Priv :=
  { cfg := sx1280_default_config, tx_skb := none, idle := true,
    initialized := true, stats_tx_packets := 0, stats_tx_bytes := 0,
    stats_tx_dropped := 0, queue_stopped := false }

/-- mode_store (src/unnamed/part_000:2682-2712): after parsing the mode
name, waits for idle, puts the chip in standby (sx1280_acquire_stdby,
src/unnamed/part_000:2643-2659, sends SetStandby(XOSC)) and issues
SetPacketType for the new mode.  The shadow `cfg.mode` is never updated.
`ptypeOk` is whether the SetPacketType write succeeds (`none` models the
surfaced error); the standby write is assumed to succeed. -/
def mode_store (p : Priv) (new_mode : Mode) (ptypeOk : Bool) :
    Option Priv × List Cmd :=
  ((if ptypeOk then some p else none),
   [Cmd.setStandby 1, Cmd.setPacketType new_mode.toByte])

/-- tx_power_store (src/unnamed/part_000:2736-2762): parses a dBm value,
rejects values outside [-18, 13], waits for idle, and stores
`power_dbm + 18` in the shadow.  No command is sent to the chip. -/
def tx_power_store (p : Priv) (power_dbm : Int) : Option Priv × List Cmd :=
  if power_dbm < -18 ∨ power_dbm > 13 then (none, [])
  else (some { p with cfg := { p.cfg with power := (power_dbm + 18).toNat } },
        [])

/-- frequency_store (src/unnamed/part_000:2856-2890): parses a Hz value,
rejects values outside [2.4 GHz, 2.5 GHz], converts to PLL steps, waits for
idle, sends SetRfFrequency, and updates the shadow `cfg.freq` only if the
write succeeded (on failure the error is surfaced and the shadow is left
unchanged). -/
def frequency_store (p : Priv) (freq_hz : Nat) (writeOk : Bool) :
    Option Priv × List Cmd :=
  if freq_hz < 2400000000 ∨ freq_hz > 2500000000 then (none, [])
  else
    let freq_pll := SX1280_FREQ_HZ_TO_PLL freq_hz
    ((if writeOk then some { p with cfg := { p.cfg with freq := freq_pll } }
      else none),
     [Cmd.setRfFrequency freq_pll])

/-- gfsk_crc_seed_store (src/unnamed/part_000:3374-3412): after the sysfs
string parsing (count check and hex2bin, outside this model; `seed` is the
two parsed bytes) and the wait for idle when in GFSK mode, writes the seed
bytes to register SX1280_REG_CRC_POLYNOMIAL_DEFINITION_MSB and, if the
write succeeded, stores them in the shadow `gfsk_crc_seed`. -/
def gfsk_crc_seed_store (p : Priv) (seed : List Nat) (writeOk : Bool) :
    Option Priv × List Cmd :=
  ((if writeOk then some { p with cfg := { p.cfg with gfsk_crc_seed := seed } }
    else none),
   [Cmd.writeRegister SX1280_REG_CRC_POLYNOMIAL_DEFINITION_MSB seed])

/-!
## Claim theorems C6..C10
-/

/-- Claim C6 (code bug): a successful mode change desynchronizes the shadow
from the chip.  Starting from the freshly probed state (default config, mode
GFSK, chip packet type GFSK from setup), a successful `mode_store` to LoRa
sends SetPacketType(LoRa) but returns the driver state completely unchanged:
the chip's packet type is now the LoRa byte while `priv->cfg.mode` still
says GFSK, so the shadow no longer equals what was last written to the
chip. -/
theorem C6_mode_store_desyncs_shadow :
    (mode_store sx1280_initial_priv Mode.lora true).1
      = some sx1280_initial_priv ∧
    sx1280_initial_priv.cfg.mode = Mode.gfsk ∧
    (Chip.applyAll
        (Chip.applyAll sx1280_chip_reset
          (sx1280_setup_cmds sx1280_default_config))
        (mode_store sx1280_initial_priv Mode.lora true).2).packet_type
      = Mode.lora.toByte ∧
    Mode.lora.toByte ≠ Mode.gfsk.toByte := by
  decide

/-- Claim C7 (code bug): the power configure operation sends nothing to the
chip.  From the freshly probed state, a successful `tx_power_store` of
13 dBm updates the shadow power to 31 but issues no command at all, so the
chip keeps transmitting at the power written during setup (18, i.e. 0 dBm):
the "re-send the affected command" part of the claim does not happen (and
there is no failed-write rollback because there is no write). -/
theorem C7_tx_power_store_sends_nothing :
    (tx_power_store sx1280_initial_priv 13).2 = [] ∧
    (tx_power_store sx1280_initial_priv 13).1
      = some { sx1280_initial_priv with
               cfg := { sx1280_default_config with power := 31 } } ∧
    (Chip.applyAll
        (Chip.applyAll sx1280_chip_reset
          (sx1280_setup_cmds sx1280_default_config))
        (tx_power_store sx1280_initial_priv 13).2).power = 18 ∧
    (31 : Nat) ≠ 18 := by
  decide

/-- Claim C8 (confirmed): on an interrupt reporting transmit-done or
transmit-timeout while a frame is in flight, the handler frees the frame
(counting it as transmitted on done, as dropped on timeout-only), marks the
radio idle (releasing the idle waiters), restarts the netdev queue, and
re-arms continuous receive by re-sending the packet params with the payload
length reset to the active mode's maximum (127 for FLRC, 255 for GFSK and
LoRa) followed by SetRx, acknowledging all IRQ bits at the end. -/
theorem C8_tx_completion_rearms_receive (p : Priv) (mask : Nat)
    (skb : List Nat)
    (hinit : p.initialized = true)
    (hskb : p.tx_skb = some skb)
    (htx : mask &&& SX1280_IRQ_TX_DONE ≠ 0 ∨
           mask &&& SX1280_IRQ_RX_TX_TIMEOUT ≠ 0)
    (_hrx1 : mask &&& SX1280_IRQ_RX_DONE = 0)
    (_hrx2 : mask &&& SX1280_IRQ_SYNC_WORD_VALID = 0) :
    (sx1280_irq_txonly p mask).1.tx_skb = none ∧
    (sx1280_irq_txonly p mask).1.idle = true ∧
    (sx1280_irq_txonly p mask).1.queue_stopped = false ∧
    (mask &&& SX1280_IRQ_TX_DONE ≠ 0 →
      (sx1280_irq_txonly p mask).1.stats_tx_packets
        = p.stats_tx_packets + 1 ∧
      (sx1280_irq_txonly p mask).1.stats_tx_bytes
        = p.stats_tx_bytes + skb.length) ∧
    (mask &&& SX1280_IRQ_TX_DONE = 0 →
      (sx1280_irq_txonly p mask).1.stats_tx_dropped
        = p.stats_tx_dropped + 1) ∧
    (sx1280_irq_txonly p mask).2
      = sx1280_listen p.cfg ++ [Cmd.clearIrqStatus 0xFFFF] ∧
    Cmd.setRx 0x00 0xFFFF ∈ (sx1280_irq_txonly p mask).2 ∧
    (p.cfg.mode = Mode.flrc →
      (sx1280_listen p.cfg).head? = some (Cmd.setPacketParams (flrcPacketBytes
        { p.cfg.flrc_packet with
          payload_length := SX1280_FLRC_PAYLOAD_LENGTH_MAX }))) ∧
    (p.cfg.mode = Mode.gfsk →
      (sx1280_listen p.cfg).head? = some (Cmd.setPacketParams (gfskPacketBytes
        { p.cfg.gfsk_packet with
          payload_length := SX1280_GFSK_PAYLOAD_LENGTH_MAX }))) ∧
    (p.cfg.mode = Mode.lora →
      (sx1280_listen p.cfg).head? = some (Cmd.setPacketParams (loraPacketBytes
        { p.cfg.lora_packet with
          payload_length := SX1280_LORA_PAYLOAD_LENGTH_MAX }))) := by
  have hguard : ¬ p.initialized = false := by simp [hinit]
  refine ⟨?_, ?_, ?_, ?_, ?_, ?_, ?_, ?_, ?_, ?_⟩
  · simp only [sx1280_irq_txonly, if_neg hguard, if_pos htx]
  · simp only [sx1280_irq_txonly, if_neg hguard, if_pos htx]
  · simp only [sx1280_irq_txonly, if_neg hguard, if_pos htx]
  · intro hdone
    simp [sx1280_irq_txonly, if_neg hguard, if_pos htx, if_pos hdone, hskb]
  · intro hnodone
    simp only [sx1280_irq_txonly, if_neg hguard, if_pos htx, if_neg
      (by simp [hnodone] : ¬ mask &&& SX1280_IRQ_TX_DONE ≠ 0)]
  · simp only [sx1280_irq_txonly, if_neg hguard, if_pos htx]
  · simp only [sx1280_irq_txonly, if_neg hguard, if_pos htx]
    cases p.cfg.mode <;> simp [sx1280_listen]
  · intro hmode
    simp [sx1280_listen, hmode]
  · intro hmode
    simp [sx1280_listen, hmode]
  · intro hmode
    simp [sx1280_listen, hmode]

/-- The driver state while a 3-byte frame is in flight, used as a concrete
interrupt scenario. -/
def sx1280_tx_busy_priv : Priv :=
  { sx1280_initial_priv with
    tx_skb := some [0x01, 0x02, 0x03],
    idle := false }

/-- Witness for C8_tx_completion_rearms_receive: a TxDone interrupt with a
3-byte frame in flight from the freshly probed (GFSK) state. -/
theorem C8_tx_completion_rearms_receive_witness :
    (sx1280_irq_txonly sx1280_tx_busy_priv 0x0001).1.idle = true ∧
    Cmd.setRx 0x00 0xFFFF ∈ (sx1280_irq_txonly sx1280_tx_busy_priv 0x0001).2 := by
  have h := C8_tx_completion_rearms_receive sx1280_tx_busy_priv 0x0001
    [0x01, 0x02, 0x03]
    (by decide) (by decide) (Or.inl (by decide)) (by decide) (by decide)
  exact ⟨h.2.1, h.2.2.2.2.2.2.1⟩

/-- Claim C9 (confirmed): receive is always armed as continuous receive.
Every SetRx the driver can issue (from sx1280_listen, which the probe calls
right after setup and which the interrupt handler calls after every transmit
completion) carries period base 15.625 us (code 0x00) and the sentinel count
0xFFFF, never the configured timeout pair; the transmit path never issues
SetRx and uses the configured (period_base, period_base_count) pair only for
SetTx. -/
theorem C9_receive_is_always_continuous (cfg : Config) (p q : Priv)
    (mask b c : Nat) :
    (Cmd.setRx b c ∈ sx1280_setup_cmds cfg ++ sx1280_listen cfg →
      b = 0x00 ∧ c = 0xFFFF) ∧
    (Cmd.setRx b c ∈ (sx1280_irq_txonly p mask).2 → b = 0x00 ∧ c = 0xFFFF) ∧
    (Cmd.setRx b c ∈ (sx1280_tx_work q).2 → False) ∧
    (Cmd.setTx b c ∈ (sx1280_tx_work q).2 →
      b = q.cfg.period_base ∧ c = q.cfg.period_base_count) ∧
    Cmd.setRx 0x00 0xFFFF ∈ sx1280_setup_cmds cfg ++ sx1280_listen cfg := by
  refine ⟨?_, ?_, ?_, ?_, ?_⟩
  · intro hmem
    cases hcm : cfg.mode <;>
      simp_all [sx1280_setup_cmds, sx1280_listen]
  · intro hmem
    by_cases hi : p.initialized = false
    · simp [sx1280_irq_txonly, hi] at hmem
    · by_cases htx : mask &&& SX1280_IRQ_TX_DONE ≠ 0 ∨
          mask &&& SX1280_IRQ_RX_TX_TIMEOUT ≠ 0
      · simp only [sx1280_irq_txonly, if_neg hi, if_pos htx] at hmem
        cases hcm : p.cfg.mode <;> simp_all [sx1280_listen]
      · simp [sx1280_irq_txonly, hi, if_neg htx] at hmem
  · intro hmem
    cases hskb : q.tx_skb with
    | none => simp [sx1280_tx_work, hskb] at hmem
    | some skb =>
      cases hcm : q.cfg.mode <;>
        simp only [sx1280_tx_work, hskb, hcm] at hmem <;>
        first
        | (split at hmem <;> simp_all)
        | simp_all
  · intro hmem
    cases hskb : q.tx_skb with
    | none => simp [sx1280_tx_work, hskb] at hmem
    | some skb =>
      cases hcm : q.cfg.mode <;>
        simp only [sx1280_tx_work, hskb, hcm] at hmem <;>
        first
        | (split at hmem <;> simp_all)
        | simp_all
  · cases hcm : cfg.mode <;> simp [sx1280_setup_cmds, sx1280_listen]

/-- Witness for C9_receive_is_always_continuous: the continuous-receive
command is present in the probe's setup-then-listen sequence for the default
configuration. -/
theorem C9_receive_is_always_continuous_witness :
    Cmd.setRx 0x00 0xFFFF ∈
      sx1280_setup_cmds sx1280_default_config
        ++ sx1280_listen sx1280_default_config :=
  (C9_receive_is_always_continuous sx1280_default_config sx1280_initial_priv
    sx1280_initial_priv 0 0 0xFFFF).2.2.2.2

/-- Claim C10 (confirmed): a successful gfsk crc_seed configure writes the
two seed bytes to register 0x9C6 (SX1280_REG_CRC_POLYNOMIAL_DEFINITION_MSB,
the CRC polynomial register) and then stores them in the shadow, while the
setup sequence writes the configured seed to the distinct CRC initial-value
register 0x9C8 (SX1280_REG_CRC_MSB_INITIAL_VALUE). -/
theorem C10_crc_seed_store_uses_polynomial_register (p : Priv)
    (b1 b2 : Nat) :
    gfsk_crc_seed_store p [b1, b2] true =
      (some { p with cfg := { p.cfg with gfsk_crc_seed := [b1, b2] } },
       [Cmd.writeRegister SX1280_REG_CRC_POLYNOMIAL_DEFINITION_MSB
          [b1, b2]]) ∧
    SX1280_REG_CRC_POLYNOMIAL_DEFINITION_MSB = 0x9C6 ∧
    SX1280_REG_CRC_MSB_INITIAL_VALUE = 0x9C8 ∧
    SX1280_REG_CRC_POLYNOMIAL_DEFINITION_MSB
      ≠ SX1280_REG_CRC_MSB_INITIAL_VALUE ∧
    Cmd.writeRegister SX1280_REG_CRC_MSB_INITIAL_VALUE p.cfg.gfsk_crc_seed
      ∈ sx1280_setup_cmds p.cfg := by
  refine ⟨rfl, rfl, rfl, by decide, ?_⟩
  simp [sx1280_setup_cmds]

end SX1280
